import Mathlib

/-!
# Verification of the snowflake-to-googlesheet ETL script

A shallow embedding of `snowflake-to-googlesheet/main.py`: the tabular data
model (pandas data frames, as far as the script uses them), the base64 /
key-material pipeline, the worksheet overwrite logic of `SheetManager`, and
the orchestrator `main`, modelled as a function from an environment of
external-call outcomes to an event trace plus an `Except` result.
-/

namespace S2G

/-- A single cell value as it appears in a data frame or worksheet. -/
inductive Cell where
  | str (s : String)
  | int (n : Int)
deriving Repr, DecidableEq

/-- A pandas-style data frame: an ordered list of named columns and an
ordered list of rows.  `len(df)` is `rows.length`, `len(df.columns)` is
`columns.length`. -/
structure DataFrame where
  columns : List String
  rows : List (List Cell)
deriving Repr, DecidableEq

/-- A data frame is rectangular when every row has one cell per column. -/
def DataFrame.rect (df : DataFrame) : Prop :=
  ∀ r ∈ df.rows, r.length = df.columns.length

/-- Pandas column assignment `df[name] = v` with a scalar `v`: if a column
called `name` exists it is overwritten in place, otherwise a new column is
appended on the right, holding `v` in every row. -/
def setColumn (df : DataFrame) (name : String) (v : Cell) : DataFrame :=
  if name ∈ df.columns then
    { columns := df.columns,
      rows := df.rows.map fun r => r.set (df.columns.indexOf name) v }
  else
    { columns := df.columns ++ [name],
      rows := df.rows.map fun r => r ++ [v] }

/-- A calendar date as `datetime.date` holds it (year, month, day). -/
structure Date where
  year : Nat
  month : Nat
  day : Nat
deriving Repr, DecidableEq

/-- The decimal digit character for `n % 10`. -/
def digitChar (n : Nat) : Char := Char.ofNat (48 + n % 10)

/-- Modelled from the spec: `date.isoformat()` of the Python standard
library renders a date as the ISO-8601 string `YYYY-MM-DD`, the year
zero-padded to four digits, month and day to two. -/
def isoformat (d : Date) : String :=
  ⟨[digitChar (d.year / 1000), digitChar (d.year / 100),
    digitChar (d.year / 10), digitChar d.year, '-',
    digitChar (d.month / 10), digitChar d.month, '-',
    digitChar (d.day / 10), digitChar d.day]⟩

/-- Recogniser for the ISO-8601 calendar-date shape `YYYY-MM-DD`. -/
def isISO8601Date (s : String) : Bool :=
  match s.data with
  | [a, b, c, d, e, f, g, h, i, j] =>
    a.isDigit && b.isDigit && c.isDigit && d.isDigit && (e = '-') &&
    f.isDigit && g.isDigit && (h = '-') && i.isDigit && j.isDigit
  | _ => false

/-- The date stamp the orchestrator applies at line 150 of `main.py`:
`df["update_date"] = date.today().isoformat()`. -/
def stamp (df : DataFrame) (today : Date) : DataFrame :=
  setColumn df "update_date" (.str (isoformat today))

/-! ## Base64 (RFC 4648), as `base64.b64encode` uses it -/

/-- The 64 base64 alphabet characters. -/
def b64Chars : List Char :=
  "ABCDEFGHIJKLMNOPQRSTUVWXYZabcdefghijklmnopqrstuvwxyz0123456789+/".toList

/-- The base64 character with index `k`. -/
def b64Char (k : Nat) : Char := b64Chars.getD k 'A'

def b64IndexAux : List Char → Nat → Char → Option Nat
  | [], _, _ => none
  | a :: as, i, c => if a = c then some i else b64IndexAux as (i + 1) c

/-- The index of a character in the base64 alphabet, if any. -/
def b64Index (c : Char) : Option Nat := b64IndexAux b64Chars 0 c

/-- Base64-encode a byte list, three bytes to four characters, with `=`
padding on a trailing group of one or two bytes. -/
def b64EncodeChunks : List Nat → List Char
  | [] => []
  | [b1] =>
    [b64Char (b1 * 65536 / 262144), b64Char (b1 * 65536 / 4096 % 64), '=', '=']
  | [b1, b2] =>
    [b64Char ((b1 * 65536 + b2 * 256) / 262144),
     b64Char ((b1 * 65536 + b2 * 256) / 4096 % 64),
     b64Char ((b1 * 65536 + b2 * 256) / 64 % 64), '=']
  | b1 :: b2 :: b3 :: rest =>
    b64Char ((b1 * 65536 + b2 * 256 + b3) / 262144) ::
      b64Char ((b1 * 65536 + b2 * 256 + b3) / 4096 % 64) ::
      b64Char ((b1 * 65536 + b2 * 256 + b3) / 64 % 64) ::
      b64Char ((b1 * 65536 + b2 * 256 + b3) % 64) :: b64EncodeChunks rest

/-- Model of `base64.b64encode(bytes).decode("utf-8")`: the base64 text of a byte
list (base64 output is pure ASCII, so the utf-8 decode is the identity on
the character sequence). -/
def b64encode (bs : List Nat) : String := ⟨b64EncodeChunks bs⟩

/-- Base64-decode four characters at a time, accepting `=` padding only at
the very end of the input. -/
def b64DecodeChars : List Char → Option (List Nat)
  | [] => some []
  | c1 :: c2 :: c3 :: c4 :: rest =>
    match b64Index c1, b64Index c2 with
    | some i1, some i2 =>
      if c3 = '=' then
        if c4 = '=' ∧ rest = [] ∧ i2 % 16 = 0 then some [i1 * 4 + i2 / 16] else none
      else
        match b64Index c3 with
        | some i3 =>
          if c4 = '=' then
            if rest = [] ∧ i3 % 4 = 0 then
              some [i1 * 4 + i2 / 16, i2 % 16 * 16 + i3 / 4]
            else none
          else
            match b64Index c4 with
            | some i4 =>
              match b64DecodeChars rest with
              | some bs =>
                some ((i1 * 4 + i2 / 16) :: (i2 % 16 * 16 + i3 / 4) ::
                      (i3 % 4 * 64 + i4) :: bs)
              | none => none
            | none => none
        | none => none
    | _, _ => none
  | _ => none

/-- Model of `base64.b64decode`: decode a base64 string back to its byte list. -/
def b64decode (s : String) : Option (List Nat) := b64DecodeChars s.data

/-! ## Key material (`load_private_key_base64`) -/

/-- Modelled from the spec: the `cryptography` library is not part of this
repository, so a parsed unencrypted private key is represented by its
canonical DER/PKCS8 byte serialization, which the library computes
deterministically from the key. -/
structure RSAPrivateKey where
  der : List Nat
deriving Repr, DecidableEq

/-- A key's DER bytes are genuine bytes. -/
def RSAPrivateKey.bytesValid (k : RSAPrivateKey) : Prop :=
  ∀ b ∈ k.der, b < 256

/-- Modelled from the spec: `private_key.private_bytes(DER, PKCS8,
NoEncryption())` — serialize the parsed key to its DER/PKCS8 bytes. -/
def private_bytes_der_pkcs8 (k : RSAPrivateKey) : List Nat := k.der

/-- Modelled from the spec: parsing DER/PKCS8 bytes back into a private
key (the inverse reading the library offers for `private_bytes`). -/
def load_der_private_key (bs : List Nat) : Option RSAPrivateKey := some ⟨bs⟩

/-- The function `load_private_key_base64` (lines 36-53 of `main.py`), applied to the
already-parsed PEM key: serialize to DER/PKCS8, base64-encode, decode as
utf-8 text. -/
def load_private_key_base64 (k : RSAPrivateKey) : String :=
  b64encode (private_bytes_der_pkcs8 k)

/-! ## Worksheets and the spreadsheet state -/

/-- A worksheet: its declared grid size and the rectangle of occupied
cells anchored at the top-left cell A1. -/
structure Worksheet where
  nrows : Nat
  ncols : Nat
  grid : List (List Cell)
deriving Repr, DecidableEq

/-- Write the cells of `new` over the front of `old`, keeping whatever of
`old` extends beyond `new` (one row). -/
def overlayRow : List Cell → List Cell → List Cell
  | old, [] => old
  | [], n :: ns => n :: overlayRow [] ns
  | _ :: os, n :: ns => n :: overlayRow os ns

/-- Model of `worksheet.update("A1", data)`: write the 2D block `new` starting at
the top-left cell, leaving cells of `old` outside the block unchanged. -/
def overlayBlock : List (List Cell) → List (List Cell) → List (List Cell)
  | old, [] => old
  | [], n :: ns => n :: overlayBlock [] ns
  | o :: os, n :: ns => overlayRow o n :: overlayBlock os ns

/-- The 2D block the sheet write sends (line 133 of `main.py`):
`[df.columns.values.tolist()] + df.values.tolist()`, the header row of
column names followed by the data rows. -/
def sheetData (df : DataFrame) : List (List Cell) :=
  (df.columns.map Cell.str) :: df.rows

/-! ## Events, errors and the environment of external outcomes -/

/-- Log levels of the `logging` calls in `main.py`. -/
inductive Level where
  | info
  | error
  | warning
deriving Repr, DecidableEq

/-- Network calls the script performs, in the two client libraries. -/
inductive NetOp where
  | connect
  | useWarehouse
  | fetch
  | authorize
  | openByUrl
  | wsLookup
  | wsClear
  | wsAdd (rows cols : Nat)
  | wsUpdate
deriving Repr, DecidableEq

/-- Observable events of one run: log lines (tagged with the stage that
emitted them), network calls, and the `connection.close()` invocation. -/
inductive Event where
  | log (lvl : Level) (stage : String)
  | net (op : NetOp)
  | closeCall
deriving Repr, DecidableEq

/-- Error conditions an execution can raise. -/
inductive Err where
  | configError
  | ioError
  | keyLoadError
  | keyMissing (k : String)
  | connectionError
  | queryError
  | authError
  | notFoundError
deriving Repr, DecidableEq

deriving instance DecidableEq for Except

/-- Outcome of `spreadsheet.worksheet(sheet_name)`: the worksheet was
found, a `WorksheetNotFound` was raised, or some other exception was
raised. -/
inductive LookupOutcome where
  | found (ws : Worksheet)
  | notFound
  | raised
deriving Repr, DecidableEq

/-- The target worksheet's state after a call: untouched, or now equal to
a given worksheet. -/
inductive SheetFate where
  | unchanged
  | becomes (ws : Worksheet)
deriving Repr, DecidableEq

/-- The configuration mapping parsed from `config.json`. -/
def Config := List (String × String)

/-- Lookup `config[k]`: a `KeyError` when the key is absent. -/
def requiredGet (cfg : Config) (k : String) : Except Err String :=
  match List.lookup k cfg with
  | some v => Except.ok v
  | none => Except.error (Err.keyMissing k)

/-- One run's environment: the outcome of every external interaction the
script can attempt, fixed up front so the run itself is a pure function. -/
structure Env where
  configFile : Option Config
  queryFile : Option String
  pemKey : Option RSAPrivateKey
  connectOk : Bool
  useWarehouseOk : Bool
  fetchResult : Option DataFrame
  closeOk : Bool
  authOk : Bool
  openOk : Bool
  lookup : LookupOutcome
  clearOk : Bool
  addOk : Bool
  updateOk : Bool
  today : Date

/-- The catch-log-reraise wrapper used at every fatal stage of `main.py`:
on an exception, append an error log line for `stage` and re-raise. -/
def logReraise (stage : String) (x : List Event × Except Err α) :
    List Event × Except Err α :=
  match x with
  | (evs, Except.ok a) => (evs, Except.ok a)
  | (evs, Except.error e) => (evs ++ [Event.log Level.error stage], Except.error e)

/-- The function `load_config` (lines 21-29): read and parse `config.json`, log
success; on failure log the error and re-raise. -/
def load_config (env : Env) : List Event × Except Err Config :=
  logReraise "load_config"
    (match env.configFile with
     | some cfg => ([Event.log Level.info "load_config"], Except.ok cfg)
     | none => ([], Except.error Err.configError))

/-- The function `load_query` (lines 32-33): read the query file.  No try/except and no
logging — a read failure propagates silently. -/
def load_query (env : Env) : List Event × Except Err String :=
  match env.queryFile with
  | some q => ([], Except.ok q)
  | none => ([], Except.error Err.ioError)

/-- The function `load_private_key_base64` run against the file system (lines 36-53):
parse the PEM file, log, serialize and base64-encode; on any failure log
the error and re-raise. -/
def load_private_key_base64_run (env : Env) : List Event × Except Err String :=
  logReraise "load_key"
    (match env.pemKey with
     | some k => ([Event.log Level.info "load_key"], Except.ok (load_private_key_base64 k))
     | none => ([], Except.error Err.keyLoadError))

/-- Constructor `SnowflakeClient.__init__` (lines 57-73): build the URL from the five
warehouse config keys (raising `KeyError` on a missing one), connect, and
issue `USE WAREHOUSE`; on any exception log the error and re-raise. -/
def snowflakeInit (env : Env) (cfg : Config) : List Event × Except Err Unit :=
  logReraise "snowflake_init"
    (match requiredGet cfg "SNOWFLAKE_USER" with
     | Except.error e => ([], Except.error e)
     | Except.ok _ =>
     match requiredGet cfg "SNOWFLAKE_ACCOUNT" with
     | Except.error e => ([], Except.error e)
     | Except.ok _ =>
     match requiredGet cfg "SNOWFLAKE_WAREHOUSE" with
     | Except.error e => ([], Except.error e)
     | Except.ok _ =>
     match requiredGet cfg "SNOWFLAKE_DATABASE" with
     | Except.error e => ([], Except.error e)
     | Except.ok _ =>
     match requiredGet cfg "SNOWFLAKE_SCHEMA" with
     | Except.error e => ([], Except.error e)
     | Except.ok _ =>
       if env.connectOk then
         if env.useWarehouseOk then
           ([Event.net NetOp.connect, Event.net NetOp.useWarehouse,
             Event.log Level.info "snowflake_init"], Except.ok ())
         else
           ([Event.net NetOp.connect, Event.net NetOp.useWarehouse],
            Except.error Err.connectionError)
       else
         ([Event.net NetOp.connect], Except.error Err.connectionError))

/-- Method `SnowflakeClient.fetch_data` (lines 75-81): log, run the query and
materialize the result; on failure log the error and re-raise. -/
def fetch_data (env : Env) : List Event × Except Err DataFrame :=
  logReraise "fetch_data"
    (match env.fetchResult with
     | some df => ([Event.log Level.info "fetch_data", Event.net NetOp.fetch], Except.ok df)
     | none => ([Event.log Level.info "fetch_data", Event.net NetOp.fetch],
                Except.error Err.queryError))

/-- Method `SnowflakeClient.close` (lines 83-89): log, invoke
`connection.close()`; a failure is logged and swallowed, so the function
never raises (it returns only events, no `Except`). -/
def closeConn (env : Env) : List Event :=
  [Event.log Level.info "close", Event.closeCall] ++
    (if env.closeOk then [] else [Event.log Level.error "close"])

/-- Constructor `GoogleSheetsClient.__init__` (lines 92-103): authorize the service
account; on failure log the error and re-raise. -/
def googleAuth (env : Env) : List Event × Except Err Unit :=
  logReraise "google_auth"
    (if env.authOk then
       ([Event.net NetOp.authorize, Event.log Level.info "google_auth"], Except.ok ())
     else ([Event.net NetOp.authorize], Except.error Err.authError))

/-- Method `GoogleSheetsClient.get_spreadsheet_by_url` (lines 105-112): open the
spreadsheet by URL; on failure log the error and re-raise. -/
def get_spreadsheet_by_url (env : Env) : List Event × Except Err Unit :=
  logReraise "open_spreadsheet"
    (if env.openOk then
       ([Event.net NetOp.openByUrl, Event.log Level.info "open_spreadsheet"], Except.ok ())
     else ([Event.net NetOp.openByUrl], Except.error Err.notFoundError))

/-- The body of `SheetManager.overwrite_with_dataframe` inside the outer
`try` (lines 120-136): locate or create the worksheet, then write header
and rows at A1.  An exception carries the worksheet's fate at the point it
was raised. -/
def overwriteBody (env : Env) (df : DataFrame) :
    List Event × Except SheetFate Worksheet :=
  match env.lookup with
  | LookupOutcome.found ws =>
    if env.clearOk then
      let cleared : Worksheet := { ws with grid := [] }
      if env.updateOk then
        ([Event.net NetOp.wsLookup, Event.net NetOp.wsClear,
          Event.log Level.info "sheet_cleared", Event.net NetOp.wsUpdate,
          Event.log Level.info "sheet_written"],
         Except.ok { cleared with grid := overlayBlock cleared.grid (sheetData df) })
      else
        ([Event.net NetOp.wsLookup, Event.net NetOp.wsClear,
          Event.log Level.info "sheet_cleared", Event.net NetOp.wsUpdate],
         Except.error (SheetFate.becomes cleared))
    else
      ([Event.net NetOp.wsLookup, Event.net NetOp.wsClear],
       Except.error SheetFate.unchanged)
  | LookupOutcome.notFound =>
    let r := max 100 (df.rows.length + 1)
    let c := max 10 (df.columns.length + 1)
    if env.addOk then
      let ws : Worksheet := { nrows := r, ncols := c, grid := [] }
      if env.updateOk then
        ([Event.net NetOp.wsLookup, Event.net (NetOp.wsAdd r c),
          Event.log Level.info "sheet_created", Event.net NetOp.wsUpdate,
          Event.log Level.info "sheet_written"],
         Except.ok { ws with grid := overlayBlock ws.grid (sheetData df) })
      else
        ([Event.net NetOp.wsLookup, Event.net (NetOp.wsAdd r c),
          Event.log Level.info "sheet_created", Event.net NetOp.wsUpdate],
         Except.error (SheetFate.becomes ws))
    else
      ([Event.net NetOp.wsLookup, Event.net (NetOp.wsAdd r c)],
       Except.error SheetFate.unchanged)
  | LookupOutcome.raised =>
    ([Event.net NetOp.wsLookup], Except.error SheetFate.unchanged)

/-- Method `SheetManager.overwrite_with_dataframe` (lines 119-139): run the body;
any exception is caught, logged, and converted to the return value
`False`. -/
def overwrite_with_dataframe (env : Env) (df : DataFrame) :
    List Event × Bool × SheetFate :=
  match overwriteBody env df with
  | (evs, Except.ok ws) => (evs, (true, SheetFate.becomes ws))
  | (evs, Except.error f) =>
    (evs ++ [Event.log Level.error "sheet_write"], (false, f))

/-- Lines 154-163 of `main`: everything after the warehouse connection has
been closed — Google authentication, opening the spreadsheet, and the
sheet write whose boolean outcome is logged but never fatal. -/
def mainTail (env : Env) (cfg : Config) (df : DataFrame) :
    List Event × Except Err Unit :=
  match requiredGet cfg "GOOGLE_KEYFILE_PATH" with
  | Except.error err => ([], Except.error err)
  | Except.ok _ =>
  match googleAuth env with
  | (e6, Except.error err) => (e6, Except.error err)
  | (e6, Except.ok _) =>
  match requiredGet cfg "SPREADSHEET_URL" with
  | Except.error err => (e6, Except.error err)
  | Except.ok _ =>
  match get_spreadsheet_by_url env with
  | (e7, Except.error err) => (e6 ++ e7, Except.error err)
  | (e7, Except.ok _) =>
  match requiredGet cfg "SHEET_NAME" with
  | Except.error err => (e6 ++ e7, Except.error err)
  | Except.ok _ =>
  match overwrite_with_dataframe env df with
  | (e8, (true, _)) =>
    (e6 ++ e7 ++ e8 ++ [Event.log Level.info "push_ok"], Except.ok ())
  | (e8, (false, _)) =>
    (e6 ++ e7 ++ e8 ++ [Event.log Level.warning "push_failed"], Except.ok ())

/-- The orchestrator `main` (lines 142-163): the full orchestrator, returning the event
trace and either normal completion or the uncaught exception. -/
def main (env : Env) : List Event × Except Err Unit :=
  match load_config env with
  | (e1, Except.error err) => (e1, Except.error err)
  | (e1, Except.ok cfg) =>
  match load_query env with
  | (e2, Except.error err) => (e1 ++ e2, Except.error err)
  | (e2, Except.ok _q) =>
  match requiredGet cfg "RSA_KEY_PATH" with
  | Except.error err => (e1 ++ e2, Except.error err)
  | Except.ok _ =>
  match load_private_key_base64_run env with
  | (e3, Except.error err) => (e1 ++ e2 ++ e3, Except.error err)
  | (e3, Except.ok _key) =>
  match snowflakeInit env cfg with
  | (e4, Except.error err) => (e1 ++ e2 ++ e3 ++ e4, Except.error err)
  | (e4, Except.ok _) =>
  match fetch_data env with
  | (e5, Except.error err) =>
    (e1 ++ e2 ++ e3 ++ e4 ++ e5 ++ closeConn env, Except.error err)
  | (e5, Except.ok df0) =>
  match mainTail env cfg (stamp df0 env.today) with
  | (et, r) => (e1 ++ e2 ++ e3 ++ e4 ++ e5 ++ closeConn env ++ et, r)

/-! ## Concrete instances used by the closed theorems -/

/-- A configuration carrying every required key. -/
def fullCfg : Config :=
  [("SNOWFLAKE_USER", "u"), ("SNOWFLAKE_ACCOUNT", "a"),
   ("SNOWFLAKE_WAREHOUSE", "w"), ("SNOWFLAKE_DATABASE", "d"),
   ("SNOWFLAKE_SCHEMA", "s"), ("RSA_KEY_PATH", "rsa_key.p8"),
   ("GOOGLE_KEYFILE_PATH", "google.json"), ("SPREADSHEET_URL", "url"),
   ("SHEET_NAME", "Report")]

/-- Drop one key from a configuration. -/
def removeKey (cfg : Config) (k : String) : Config :=
  List.filter (fun p => p.1 != k) cfg

/-- An environment in which every external call succeeds, parameterized by
the configuration the config file holds. -/
def envWithCfg (cfg : Config) : Env :=
  { configFile := some cfg, queryFile := some "SELECT 1",
    pemKey := some ⟨[48, 1, 2]⟩, connectOk := true, useWarehouseOk := true,
    fetchResult := some ⟨["id"], [[Cell.int 1]]⟩, closeOk := true,
    authOk := true, openOk := true, lookup := LookupOutcome.notFound,
    clearOk := true, addOk := true, updateOk := true,
    today := ⟨2024, 1, 1⟩ }

/-- The required keys whose first use precedes every network call. -/
def earlyKeys : List String :=
  ["SNOWFLAKE_USER", "SNOWFLAKE_ACCOUNT", "SNOWFLAKE_WAREHOUSE",
   "SNOWFLAKE_DATABASE", "SNOWFLAKE_SCHEMA", "RSA_KEY_PATH"]

/-- The required keys first used only after the warehouse phase. -/
def lateKeys : List String :=
  ["GOOGLE_KEYFILE_PATH", "SPREADSHEET_URL", "SHEET_NAME"]

/-- Does the trace contain an error-level log line? -/
def hasErrorLog (evs : List Event) : Bool :=
  evs.any fun e =>
    match e with
    | Event.log Level.error _ => true
    | _ => false

/-- Is this event a network call? -/
def isNetEvent : Event → Bool
  | Event.net _ => true
  | _ => false

/-- Is this event a spreadsheet-side network call? -/
def isSheetOpEvent : Event → Bool
  | Event.net NetOp.authorize => true
  | Event.net NetOp.openByUrl => true
  | Event.net NetOp.wsLookup => true
  | Event.net NetOp.wsClear => true
  | Event.net (NetOp.wsAdd _ _) => true
  | Event.net NetOp.wsUpdate => true
  | _ => false

/-! ## Base64 lemmas -/

theorem b64Index_b64Char : ∀ k, k < 64 → b64Index (b64Char k) = some k := by
  decide

theorem b64Char_ne_pad : ∀ k, k < 64 → b64Char k ≠ '=' := by
  decide

theorem b64DecodeChars_pad2 (i1 i2 : Nat) (h1 : i1 < 64) (h2 : i2 < 64) :
    b64DecodeChars [b64Char i1, b64Char i2, '=', '='] =
      if i2 % 16 = 0 then some [i1 * 4 + i2 / 16] else none := by
  simp [b64DecodeChars, b64Index_b64Char i1 h1, b64Index_b64Char i2 h2]

theorem b64DecodeChars_pad1 (i1 i2 i3 : Nat)
    (h1 : i1 < 64) (h2 : i2 < 64) (h3 : i3 < 64) :
    b64DecodeChars [b64Char i1, b64Char i2, b64Char i3, '='] =
      if i3 % 4 = 0 then some [i1 * 4 + i2 / 16, i2 % 16 * 16 + i3 / 4]
      else none := by
  simp [b64DecodeChars, b64Index_b64Char i1 h1, b64Index_b64Char i2 h2,
    b64Index_b64Char i3 h3, b64Char_ne_pad i3 h3]

theorem b64DecodeChars_quad (i1 i2 i3 i4 : Nat) (rest : List Char)
    (h1 : i1 < 64) (h2 : i2 < 64) (h3 : i3 < 64) (h4 : i4 < 64) :
    b64DecodeChars (b64Char i1 :: b64Char i2 :: b64Char i3 :: b64Char i4 :: rest) =
      match b64DecodeChars rest with
      | some bs => some ((i1 * 4 + i2 / 16) :: (i2 % 16 * 16 + i3 / 4) ::
                         (i3 % 4 * 64 + i4) :: bs)
      | none => none := by
  simp [b64DecodeChars, b64Index_b64Char i1 h1, b64Index_b64Char i2 h2,
    b64Index_b64Char i3 h3, b64Index_b64Char i4 h4,
    b64Char_ne_pad i3 h3, b64Char_ne_pad i4 h4]

theorem b64DecodeChars_encode :
    ∀ bs : List Nat, (∀ b ∈ bs, b < 256) →
      b64DecodeChars (b64EncodeChunks bs) = some bs
  | [], _ => rfl
  | [b1], h => by
    have hb1 : b1 < 256 := h b1 (by simp)
    rw [show b64EncodeChunks [b1] =
      [b64Char (b1 * 65536 / 262144), b64Char (b1 * 65536 / 4096 % 64), '=', '='] from rfl]
    rw [b64DecodeChars_pad2 _ _ (by omega) (by omega)]
    rw [if_pos (by omega)]
    have : b1 * 65536 / 262144 * 4 + b1 * 65536 / 4096 % 64 / 16 = b1 := by omega
    rw [this]
  | [b1, b2], h => by
    have hb1 : b1 < 256 := h b1 (by simp)
    have hb2 : b2 < 256 := h b2 (by simp)
    rw [show b64EncodeChunks [b1, b2] =
      [b64Char ((b1 * 65536 + b2 * 256) / 262144),
       b64Char ((b1 * 65536 + b2 * 256) / 4096 % 64),
       b64Char ((b1 * 65536 + b2 * 256) / 64 % 64), '='] from rfl]
    rw [b64DecodeChars_pad1 _ _ _ (by omega) (by omega) (by omega)]
    rw [if_pos (by omega)]
    have e1 : (b1 * 65536 + b2 * 256) / 262144 * 4 +
        (b1 * 65536 + b2 * 256) / 4096 % 64 / 16 = b1 := by omega
    have e2 : (b1 * 65536 + b2 * 256) / 4096 % 64 % 16 * 16 +
        (b1 * 65536 + b2 * 256) / 64 % 64 / 4 = b2 := by omega
    rw [e1, e2]
  | b1 :: b2 :: b3 :: b4 :: rest, h => by
    have hb1 : b1 < 256 := h b1 (by simp)
    have hb2 : b2 < 256 := h b2 (by simp)
    have hb3 : b3 < 256 := h b3 (by simp)
    have ih := b64DecodeChars_encode (b4 :: rest)
      (fun b hb => h b (by simp at hb ⊢; tauto))
    rw [show b64EncodeChunks (b1 :: b2 :: b3 :: b4 :: rest) =
      b64Char ((b1 * 65536 + b2 * 256 + b3) / 262144) ::
        b64Char ((b1 * 65536 + b2 * 256 + b3) / 4096 % 64) ::
        b64Char ((b1 * 65536 + b2 * 256 + b3) / 64 % 64) ::
        b64Char ((b1 * 65536 + b2 * 256 + b3) % 64) ::
        b64EncodeChunks (b4 :: rest) from rfl]
    rw [b64DecodeChars_quad _ _ _ _ _ (by omega) (by omega) (by omega) (by omega)]
    rw [ih]
    have e1 : (b1 * 65536 + b2 * 256 + b3) / 262144 * 4 +
        (b1 * 65536 + b2 * 256 + b3) / 4096 % 64 / 16 = b1 := by omega
    have e2 : (b1 * 65536 + b2 * 256 + b3) / 4096 % 64 % 16 * 16 +
        (b1 * 65536 + b2 * 256 + b3) / 64 % 64 / 4 = b2 := by omega
    have e3 : (b1 * 65536 + b2 * 256 + b3) / 64 % 64 % 4 * 64 +
        (b1 * 65536 + b2 * 256 + b3) % 64 = b3 := by omega
    rw [e1, e2, e3]
  | b1 :: b2 :: b3 :: [], h => by
    have hb1 : b1 < 256 := h b1 (by simp)
    have hb2 : b2 < 256 := h b2 (by simp)
    have hb3 : b3 < 256 := h b3 (by simp)
    rw [show b64EncodeChunks [b1, b2, b3] =
      b64Char ((b1 * 65536 + b2 * 256 + b3) / 262144) ::
        b64Char ((b1 * 65536 + b2 * 256 + b3) / 4096 % 64) ::
        b64Char ((b1 * 65536 + b2 * 256 + b3) / 64 % 64) ::
        b64Char ((b1 * 65536 + b2 * 256 + b3) % 64) :: [] from rfl]
    rw [b64DecodeChars_quad _ _ _ _ _ (by omega) (by omega) (by omega) (by omega)]
    rw [show b64DecodeChars [] = some [] from rfl]
    have e1 : (b1 * 65536 + b2 * 256 + b3) / 262144 * 4 +
        (b1 * 65536 + b2 * 256 + b3) / 4096 % 64 / 16 = b1 := by omega
    have e2 : (b1 * 65536 + b2 * 256 + b3) / 4096 % 64 % 16 * 16 +
        (b1 * 65536 + b2 * 256 + b3) / 64 % 64 / 4 = b2 := by omega
    have e3 : (b1 * 65536 + b2 * 256 + b3) / 64 % 64 % 4 * 64 +
        (b1 * 65536 + b2 * 256 + b3) % 64 = b3 := by omega
    rw [e1, e2, e3]

theorem b64decode_b64encode (bs : List Nat) (h : ∀ b ∈ bs, b < 256) :
    b64decode (b64encode bs) = some bs :=
  b64DecodeChars_encode bs h

/-- C8: `load_private_key_base64` is deterministic — equal PEM key inputs
yield the same base64 output — and base64-decoding the output yields the
key's DER/PKCS8 bytes, which parse back to the original key. -/
theorem load_private_key_base64_roundtrip (k k' : RSAPrivateKey)
    (hv : k.bytesValid) (hk : k = k') :
    load_private_key_base64 k = load_private_key_base64 k' ∧
    b64decode (load_private_key_base64 k) = some (private_bytes_der_pkcs8 k) ∧
    load_der_private_key (private_bytes_der_pkcs8 k) = some k := by
  refine ⟨by rw [hk], ?_, rfl⟩
  exact b64decode_b64encode k.der hv

theorem load_private_key_base64_roundtrip_witness :
    load_private_key_base64 ⟨[48, 130, 4, 190]⟩ =
        load_private_key_base64 ⟨[48, 130, 4, 190]⟩ ∧
    b64decode (load_private_key_base64 ⟨[48, 130, 4, 190]⟩) =
        some (private_bytes_der_pkcs8 ⟨[48, 130, 4, 190]⟩) ∧
    load_der_private_key (private_bytes_der_pkcs8 ⟨[48, 130, 4, 190]⟩) =
        some ⟨[48, 130, 4, 190]⟩ :=
  load_private_key_base64_roundtrip _ _ (by simp only [RSAPrivateKey.bytesValid]; decide) rfl

/-! ## Date-stamp lemmas -/

theorem digitChar_isDigit (n : Nat) : (digitChar n).isDigit = true := by
  have h : n % 10 < 10 := Nat.mod_lt n (by norm_num)
  have : ∀ k, k < 10 → (Char.ofNat (48 + k)).isDigit = true := by decide
  exact this (n % 10) h

theorem isoformat_shape (d : Date) : isISO8601Date (isoformat d) = true := by
  simp [isISO8601Date, isoformat, digitChar_isDigit]

/-- C1 (amended): when the query result has no column named
`update_date`, the date-stamp step appends one column holding the same
ISO-8601 date string in every row, preserving the row count. -/
theorem stamp_appends_iso_date_column (df : DataFrame) (today : Date)
    (h : "update_date" ∉ df.columns) :
    (stamp df today).rows.length = df.rows.length ∧
    (stamp df today).columns = df.columns ++ ["update_date"] ∧
    (stamp df today).columns.length = df.columns.length + 1 ∧
    (∀ r ∈ (stamp df today).rows,
        r.getLast? = some (Cell.str (isoformat today))) ∧
    isISO8601Date (isoformat today) = true := by
  have hs : stamp df today =
      { columns := df.columns ++ ["update_date"],
        rows := df.rows.map fun r => r ++ [Cell.str (isoformat today)] } := by
    simp [stamp, setColumn, h]
  refine ⟨by rw [hs]; simp, by rw [hs], by rw [hs]; simp, ?_, isoformat_shape today⟩
  intro r hr
  rw [hs] at hr
  simp only [List.mem_map] at hr
  obtain ⟨r0, _, rfl⟩ := hr
  exact List.getLast?_concat r0

theorem stamp_appends_iso_date_column_witness :
    ("update_date" ∉ (⟨["id"], [[Cell.int 1], [Cell.int 2]]⟩ : DataFrame).columns) ∧
    ((stamp ⟨["id"], [[Cell.int 1], [Cell.int 2]]⟩ ⟨2024, 5, 17⟩).rows.length =
        (⟨["id"], [[Cell.int 1], [Cell.int 2]]⟩ : DataFrame).rows.length ∧
      (stamp ⟨["id"], [[Cell.int 1], [Cell.int 2]]⟩ ⟨2024, 5, 17⟩).columns =
        (⟨["id"], [[Cell.int 1], [Cell.int 2]]⟩ : DataFrame).columns ++ ["update_date"] ∧
      (stamp ⟨["id"], [[Cell.int 1], [Cell.int 2]]⟩ ⟨2024, 5, 17⟩).columns.length =
        (⟨["id"], [[Cell.int 1], [Cell.int 2]]⟩ : DataFrame).columns.length + 1 ∧
      (∀ r ∈ (stamp ⟨["id"], [[Cell.int 1], [Cell.int 2]]⟩ ⟨2024, 5, 17⟩).rows,
          r.getLast? = some (Cell.str (isoformat ⟨2024, 5, 17⟩))) ∧
      isISO8601Date (isoformat ⟨2024, 5, 17⟩) = true) :=
  ⟨by decide, stamp_appends_iso_date_column _ _ (by decide)⟩

/-- C1 (counterexample): on a query result that already has an
`update_date` column, the stamped table has `C` columns, not `C + 1`. -/
theorem stamp_existing_column_count_counterexample :
    (stamp ⟨["update_date"], [[Cell.str "old"]]⟩ ⟨2024, 1, 1⟩).columns.length ≠
      (⟨["update_date"], [[Cell.str "old"]]⟩ : DataFrame).columns.length + 1 := by
  decide

/-- C10: when the query result already has an `update_date` column, the
date-stamp step overwrites that column in place: the column list is
unchanged (so the stamped table has `C` columns), row count and row widths
are preserved, the cell in the `update_date` column of every row becomes
the date string, and all other cells are untouched. -/
theorem stamp_overwrites_existing_column (df : DataFrame) (today : Date)
    (h : "update_date" ∈ df.columns) :
    (stamp df today).columns = df.columns ∧
    (stamp df today).rows.length = df.rows.length ∧
    ∀ (i : Nat) (r : List Cell), df.rows[i]? = some r →
      ∃ r', (stamp df today).rows[i]? = some r' ∧
        r'.length = r.length ∧
        (∀ j, j ≠ df.columns.indexOf "update_date" → r'[j]? = r[j]?) ∧
        (df.columns.indexOf "update_date" < r.length →
          r'[df.columns.indexOf "update_date"]? =
            some (Cell.str (isoformat today))) := by
  have hs : stamp df today =
      { columns := df.columns,
        rows := df.rows.map fun r =>
          r.set (df.columns.indexOf "update_date") (Cell.str (isoformat today)) } := by
    simp [stamp, setColumn, h]
  refine ⟨by rw [hs], by rw [hs]; simp, ?_⟩
  intro i r hr
  refine ⟨r.set (df.columns.indexOf "update_date") (Cell.str (isoformat today)),
    ?_, by simp, ?_, ?_⟩
  · rw [hs]
    simp [List.getElem?_map, hr]
  · intro j hj
    exact List.getElem?_set_ne (fun hx => hj hx.symm)
  · intro hlt
    exact List.getElem?_set_self hlt

theorem stamp_overwrites_existing_column_witness :
    ("update_date" ∈
        (⟨["id", "update_date"], [[Cell.int 1, Cell.str "old"]]⟩ : DataFrame).columns) ∧
    ((stamp ⟨["id", "update_date"], [[Cell.int 1, Cell.str "old"]]⟩ ⟨2024, 5, 17⟩).columns =
        (⟨["id", "update_date"], [[Cell.int 1, Cell.str "old"]]⟩ : DataFrame).columns ∧
      (stamp ⟨["id", "update_date"], [[Cell.int 1, Cell.str "old"]]⟩ ⟨2024, 5, 17⟩).rows.length =
        (⟨["id", "update_date"], [[Cell.int 1, Cell.str "old"]]⟩ : DataFrame).rows.length ∧
      ∀ (i : Nat) (r : List Cell),
        (⟨["id", "update_date"], [[Cell.int 1, Cell.str "old"]]⟩ : DataFrame).rows[i]? = some r →
        ∃ r', (stamp ⟨["id", "update_date"], [[Cell.int 1, Cell.str "old"]]⟩
                  ⟨2024, 5, 17⟩).rows[i]? = some r' ∧
          r'.length = r.length ∧
          (∀ j, j ≠ (⟨["id", "update_date"], [[Cell.int 1, Cell.str "old"]]⟩ :
                DataFrame).columns.indexOf "update_date" → r'[j]? = r[j]?) ∧
          ((⟨["id", "update_date"], [[Cell.int 1, Cell.str "old"]]⟩ :
                DataFrame).columns.indexOf "update_date" < r.length →
            r'[(⟨["id", "update_date"], [[Cell.int 1, Cell.str "old"]]⟩ :
                DataFrame).columns.indexOf "update_date"]? =
              some (Cell.str (isoformat ⟨2024, 5, 17⟩)))) :=
  ⟨by decide, stamp_overwrites_existing_column _ _ (by decide)⟩

/-! ## Sheet-write lemmas -/

theorem overlayBlock_nil (d : List (List Cell)) : overlayBlock [] d = d := by
  induction d with
  | nil => rfl
  | cons x xs ih => simp [overlayBlock, ih]

/-- C2: a successful `overwrite_with_dataframe` on an existing worksheet
leaves its occupied range exactly equal to the header row followed by the
data rows, in order, with nothing left from before the call, and the clear
happens before the write. -/
theorem overwrite_existing_sheet_exact (env : Env) (df : DataFrame)
    (ws : Worksheet) (h : env.lookup = LookupOutcome.found ws)
    (hs : (overwrite_with_dataframe env df).2.1 = true) :
    (overwrite_with_dataframe env df).2.2 =
      SheetFate.becomes
        { ws with grid := (df.columns.map Cell.str) :: df.rows } ∧
    [Event.net NetOp.wsClear, Event.net NetOp.wsUpdate].Sublist
      (overwrite_with_dataframe env df).1 := by
  cases hclr : env.clearOk with
  | false =>
    rw [overwrite_with_dataframe, overwriteBody, h, hclr] at hs
    simp at hs
  | true =>
    cases hupd : env.updateOk with
    | false =>
      rw [overwrite_with_dataframe, overwriteBody, h, hclr, hupd] at hs
      simp at hs
    | true =>
      rw [overwrite_with_dataframe, overwriteBody, h, hclr, hupd]
      constructor
      · simp [sheetData, overlayBlock_nil]
      · simp

theorem overwrite_existing_sheet_exact_witness :
    (({ envWithCfg fullCfg with
        lookup := LookupOutcome.found ⟨5, 5, [[Cell.str "junk"]]⟩ } : Env).lookup =
      LookupOutcome.found ⟨5, 5, [[Cell.str "junk"]]⟩) ∧
    ((overwrite_with_dataframe
        { envWithCfg fullCfg with
          lookup := LookupOutcome.found ⟨5, 5, [[Cell.str "junk"]]⟩ }
        ⟨["id"], [[Cell.int 1]]⟩).2.1 = true) ∧
    ((overwrite_with_dataframe
        { envWithCfg fullCfg with
          lookup := LookupOutcome.found ⟨5, 5, [[Cell.str "junk"]]⟩ }
        ⟨["id"], [[Cell.int 1]]⟩).2.2 =
      SheetFate.becomes ⟨5, 5, [[Cell.str "id"], [Cell.int 1]]⟩ ∧
    [Event.net NetOp.wsClear, Event.net NetOp.wsUpdate].Sublist
      (overwrite_with_dataframe
        { envWithCfg fullCfg with
          lookup := LookupOutcome.found ⟨5, 5, [[Cell.str "junk"]]⟩ }
        ⟨["id"], [[Cell.int 1]]⟩).1) :=
  ⟨rfl, by decide,
    overwrite_existing_sheet_exact
      { envWithCfg fullCfg with
        lookup := LookupOutcome.found ⟨5, 5, [[Cell.str "junk"]]⟩ }
      ⟨["id"], [[Cell.int 1]]⟩ ⟨5, 5, [[Cell.str "junk"]]⟩ rfl (by decide)⟩

/-- C4: when the worksheet does not exist, `overwrite_with_dataframe`
creates one with exactly `max 100 (R + 1)` rows and `max 10 (C + 1)`
columns, and a successful call leaves that sheet holding header plus
rows. -/
theorem overwrite_creates_sized_sheet (env : Env) (df : DataFrame)
    (h : env.lookup = LookupOutcome.notFound) :
    Event.net (NetOp.wsAdd (max 100 (df.rows.length + 1))
        (max 10 (df.columns.length + 1))) ∈
      (overwrite_with_dataframe env df).1 ∧
    ((overwrite_with_dataframe env df).2.1 = true →
      (overwrite_with_dataframe env df).2.2 =
        SheetFate.becomes
          { nrows := max 100 (df.rows.length + 1),
            ncols := max 10 (df.columns.length + 1),
            grid := (df.columns.map Cell.str) :: df.rows }) := by
  cases hadd : env.addOk with
  | false =>
    rw [overwrite_with_dataframe, overwriteBody, h, hadd]
    simp
  | true =>
    cases hupd : env.updateOk with
    | false =>
      rw [overwrite_with_dataframe, overwriteBody, h, hadd, hupd]
      simp
    | true =>
      rw [overwrite_with_dataframe, overwriteBody, h, hadd, hupd]
      simp [sheetData, overlayBlock_nil]

theorem overwrite_creates_sized_sheet_witness :
    ((envWithCfg fullCfg).lookup = LookupOutcome.notFound) ∧
    (Event.net (NetOp.wsAdd (max 100 ((⟨["id"], [[Cell.int 1]]⟩ : DataFrame).rows.length + 1))
        (max 10 ((⟨["id"], [[Cell.int 1]]⟩ : DataFrame).columns.length + 1))) ∈
      (overwrite_with_dataframe (envWithCfg fullCfg) ⟨["id"], [[Cell.int 1]]⟩).1 ∧
    ((overwrite_with_dataframe (envWithCfg fullCfg) ⟨["id"], [[Cell.int 1]]⟩).2.1 = true →
      (overwrite_with_dataframe (envWithCfg fullCfg) ⟨["id"], [[Cell.int 1]]⟩).2.2 =
        SheetFate.becomes
          { nrows := max 100 ((⟨["id"], [[Cell.int 1]]⟩ : DataFrame).rows.length + 1),
            ncols := max 10 ((⟨["id"], [[Cell.int 1]]⟩ : DataFrame).columns.length + 1),
            grid := ((⟨["id"], [[Cell.int 1]]⟩ : DataFrame).columns.map Cell.str) ::
              (⟨["id"], [[Cell.int 1]]⟩ : DataFrame).rows })) :=
  ⟨rfl, overwrite_creates_sized_sheet _ _ rfl⟩

/-- C9: only a `WorksheetNotFound` from the lookup leads to worksheet
creation; any other exception during lookup or clear makes the call return
`false` with the sheet untouched, no sheet created and no write
attempted. -/
theorem overwrite_only_notFound_creates (env : Env) (df : DataFrame) :
    (∀ r c, Event.net (NetOp.wsAdd r c) ∈ (overwrite_with_dataframe env df).1 →
      env.lookup = LookupOutcome.notFound) ∧
    ((env.lookup = LookupOutcome.raised ∨
        (∃ ws, env.lookup = LookupOutcome.found ws ∧ env.clearOk = false)) →
      (overwrite_with_dataframe env df).2.1 = false ∧
      (overwrite_with_dataframe env df).2.2 = SheetFate.unchanged ∧
      (∀ r c, Event.net (NetOp.wsAdd r c) ∉ (overwrite_with_dataframe env df).1) ∧
      Event.net NetOp.wsUpdate ∉ (overwrite_with_dataframe env df).1) := by
  constructor
  · intro r c hmem
    cases hlk : env.lookup with
    | notFound => rfl
    | raised =>
      rw [overwrite_with_dataframe, overwriteBody, hlk] at hmem
      simp at hmem
    | found ws =>
      rw [overwrite_with_dataframe, overwriteBody, hlk] at hmem
      cases hclr : env.clearOk <;> rw [hclr] at hmem <;>
        cases hupd : env.updateOk <;> simp [hupd] at hmem
  · rintro (hlk | ⟨ws, hlk, hclr⟩)
    · rw [overwrite_with_dataframe, overwriteBody, hlk]
      simp
    · rw [overwrite_with_dataframe, overwriteBody, hlk, hclr]
      simp

theorem overwrite_only_notFound_creates_witness :
    (({ envWithCfg fullCfg with lookup := LookupOutcome.raised : Env}.lookup =
          LookupOutcome.raised ∨
        ∃ ws, { envWithCfg fullCfg with lookup := LookupOutcome.raised : Env}.lookup =
            LookupOutcome.found ws ∧
          { envWithCfg fullCfg with lookup := LookupOutcome.raised : Env}.clearOk = false)) ∧
    ((overwrite_with_dataframe { envWithCfg fullCfg with lookup := LookupOutcome.raised }
        ⟨["id"], [[Cell.int 1]]⟩).2.1 = false ∧
      (overwrite_with_dataframe { envWithCfg fullCfg with lookup := LookupOutcome.raised }
        ⟨["id"], [[Cell.int 1]]⟩).2.2 = SheetFate.unchanged ∧
      (∀ r c, Event.net (NetOp.wsAdd r c) ∉
        (overwrite_with_dataframe { envWithCfg fullCfg with lookup := LookupOutcome.raised }
          ⟨["id"], [[Cell.int 1]]⟩).1) ∧
      Event.net NetOp.wsUpdate ∉
        (overwrite_with_dataframe { envWithCfg fullCfg with lookup := LookupOutcome.raised }
          ⟨["id"], [[Cell.int 1]]⟩).1) :=
  ⟨Or.inl rfl,
   (overwrite_only_notFound_creates
      { envWithCfg fullCfg with lookup := LookupOutcome.raised }
      ⟨["id"], [[Cell.int 1]]⟩).2 (Or.inl rfl)⟩

/-! ## Orchestrator lemmas -/

theorem mainTail_ignores_closeOk (env : Env) (cfg : Config) (df : DataFrame)
    (b : Bool) :
    mainTail { env with closeOk := b } cfg df = mainTail env cfg df := rfl

/-- C5: once the warehouse connection is established, `close` is invoked
on every path — also when the fetch raises, since `env.fetchResult` is
unconstrained here — and a failure inside `close` is swallowed: the run's
result does not depend on `closeOk`. -/
theorem main_always_closes_connection (env : Env) (cfg : Config)
    (hc : env.configFile = some cfg)
    (hq : ∃ q, env.queryFile = some q)
    (hrsa : ∃ v, List.lookup "RSA_KEY_PATH" cfg = some v)
    (hk : ∃ k0, env.pemKey = some k0)
    (h1 : ∃ v, List.lookup "SNOWFLAKE_USER" cfg = some v)
    (h2 : ∃ v, List.lookup "SNOWFLAKE_ACCOUNT" cfg = some v)
    (h3 : ∃ v, List.lookup "SNOWFLAKE_WAREHOUSE" cfg = some v)
    (h4 : ∃ v, List.lookup "SNOWFLAKE_DATABASE" cfg = some v)
    (h5 : ∃ v, List.lookup "SNOWFLAKE_SCHEMA" cfg = some v)
    (hcon : env.connectOk = true) (hwh : env.useWarehouseOk = true) :
    Event.closeCall ∈ (main env).1 ∧
    ∀ b, (main { env with closeOk := b }).2 = (main env).2 := by
  obtain ⟨q, hq⟩ := hq
  obtain ⟨vr, hrsa⟩ := hrsa
  obtain ⟨k0, hk⟩ := hk
  obtain ⟨v1, h1⟩ := h1
  obtain ⟨v2, h2⟩ := h2
  obtain ⟨v3, h3⟩ := h3
  obtain ⟨v4, h4⟩ := h4
  obtain ⟨v5, h5⟩ := h5
  constructor
  · rcases hf : env.fetchResult with _ | df0
    · simp [main, load_config, load_query, load_private_key_base64_run,
        snowflakeInit, fetch_data, closeConn, logReraise, requiredGet,
        hc, hq, hrsa, hk, h1, h2, h3, h4, h5, hcon, hwh, hf]
    · rcases hmt : mainTail env cfg (stamp df0 env.today) with ⟨et, r⟩
      simp [main, load_config, load_query, load_private_key_base64_run,
        snowflakeInit, fetch_data, closeConn, logReraise, requiredGet,
        hc, hq, hrsa, hk, h1, h2, h3, h4, h5, hcon, hwh, hf, hmt]
  · intro b
    have hup : ∀ d, mainTail { env with closeOk := b } cfg d = mainTail env cfg d :=
      fun d => mainTail_ignores_closeOk env cfg d b
    rcases hf : env.fetchResult with _ | df0
    · simp [main, load_config, load_query, load_private_key_base64_run,
        snowflakeInit, fetch_data, logReraise, requiredGet,
        hc, hq, hrsa, hk, h1, h2, h3, h4, h5, hcon, hwh, hf]
    · rcases hmt : mainTail env cfg (stamp df0 env.today) with ⟨et, r⟩
      have hup2 : mainTail { env with closeOk := b } cfg (stamp df0 env.today) =
          (et, r) := (hup (stamp df0 env.today)).trans hmt
      rw [hc, hq, hk, hcon, hwh, hf] at hup2
      simp [main, load_config, load_query, load_private_key_base64_run,
        snowflakeInit, fetch_data, logReraise, requiredGet,
        hc, hq, hrsa, hk, h1, h2, h3, h4, h5, hcon, hwh, hf, hmt, hup2]

theorem main_always_closes_connection_witness :
    ((envWithCfg fullCfg).configFile = some fullCfg) ∧
    (Event.closeCall ∈ (main (envWithCfg fullCfg)).1 ∧
      ∀ b, (main { envWithCfg fullCfg with closeOk := b }).2 =
        (main (envWithCfg fullCfg)).2) :=
  ⟨rfl, main_always_closes_connection (envWithCfg fullCfg) fullCfg rfl
    ⟨"SELECT 1", rfl⟩ ⟨"rsa_key.p8", rfl⟩ ⟨⟨[48, 1, 2]⟩, rfl⟩
    ⟨"u", rfl⟩ ⟨"a", rfl⟩ ⟨"w", rfl⟩ ⟨"d", rfl⟩ ⟨"s", rfl⟩ rfl rfl⟩

/-- C3: `overwrite_with_dataframe` never propagates an exception — its
outcome is the boolean saying whether the write body succeeded — and when
it reports `false` the orchestrator logs a warning and still finishes
normally. -/
theorem overwrite_reports_status_main_exits_normally (env : Env) (cfg : Config)
    (df0 : DataFrame)
    (hc : env.configFile = some cfg)
    (hq : ∃ q, env.queryFile = some q)
    (hrsa : ∃ v, List.lookup "RSA_KEY_PATH" cfg = some v)
    (hk : ∃ k0, env.pemKey = some k0)
    (h1 : ∃ v, List.lookup "SNOWFLAKE_USER" cfg = some v)
    (h2 : ∃ v, List.lookup "SNOWFLAKE_ACCOUNT" cfg = some v)
    (h3 : ∃ v, List.lookup "SNOWFLAKE_WAREHOUSE" cfg = some v)
    (h4 : ∃ v, List.lookup "SNOWFLAKE_DATABASE" cfg = some v)
    (h5 : ∃ v, List.lookup "SNOWFLAKE_SCHEMA" cfg = some v)
    (hg : ∃ v, List.lookup "GOOGLE_KEYFILE_PATH" cfg = some v)
    (hu : ∃ v, List.lookup "SPREADSHEET_URL" cfg = some v)
    (hn : ∃ v, List.lookup "SHEET_NAME" cfg = some v)
    (hcon : env.connectOk = true) (hwh : env.useWarehouseOk = true)
    (hf : env.fetchResult = some df0)
    (ha : env.authOk = true) (ho : env.openOk = true) :
    (∀ df, (overwrite_with_dataframe env df).2.1 = true ↔
        ∃ ws, (overwriteBody env df).2 = Except.ok ws) ∧
    (main env).2 = Except.ok () ∧
    ((overwrite_with_dataframe env (stamp df0 env.today)).2.1 = false →
      Event.log Level.warning "push_failed" ∈ (main env).1) := by
  obtain ⟨q, hq⟩ := hq
  obtain ⟨vr, hrsa⟩ := hrsa
  obtain ⟨k0, hk⟩ := hk
  obtain ⟨v1, h1⟩ := h1
  obtain ⟨v2, h2⟩ := h2
  obtain ⟨v3, h3⟩ := h3
  obtain ⟨v4, h4⟩ := h4
  obtain ⟨v5, h5⟩ := h5
  obtain ⟨vg, hg⟩ := hg
  obtain ⟨vu, hu⟩ := hu
  obtain ⟨vn, hn⟩ := hn
  refine ⟨?_, ?_⟩
  · intro df
    rcases hB : overwriteBody env df with ⟨evs, rr⟩
    cases rr with
    | ok ws => simp [overwrite_with_dataframe, hB]
    | error fe => simp [overwrite_with_dataframe, hB]
  · rcases hov : overwrite_with_dataframe env (stamp df0 env.today) with ⟨e8, bo, fate⟩
    cases bo with
    | true =>
      have hmt : mainTail env cfg (stamp df0 env.today) =
          (Event.net NetOp.authorize :: Event.log Level.info "google_auth" ::
            Event.net NetOp.openByUrl :: Event.log Level.info "open_spreadsheet" ::
            (e8 ++ [Event.log Level.info "push_ok"]), Except.ok ()) := by
        simp [mainTail, googleAuth, get_spreadsheet_by_url, logReraise,
          requiredGet, hg, hu, hn, ha, ho, hov]
      constructor
      · simp [main, load_config, load_query, load_private_key_base64_run,
          snowflakeInit, fetch_data, logReraise, requiredGet,
          hc, hq, hrsa, hk, h1, h2, h3, h4, h5, hcon, hwh, hf, hmt]
      · intro hfalse
        simp at hfalse
    | false =>
      have hmt : mainTail env cfg (stamp df0 env.today) =
          (Event.net NetOp.authorize :: Event.log Level.info "google_auth" ::
            Event.net NetOp.openByUrl :: Event.log Level.info "open_spreadsheet" ::
            (e8 ++ [Event.log Level.warning "push_failed"]), Except.ok ()) := by
        simp [mainTail, googleAuth, get_spreadsheet_by_url, logReraise,
          requiredGet, hg, hu, hn, ha, ho, hov]
      constructor
      · simp [main, load_config, load_query, load_private_key_base64_run,
          snowflakeInit, fetch_data, logReraise, requiredGet,
          hc, hq, hrsa, hk, h1, h2, h3, h4, h5, hcon, hwh, hf, hmt]
      · intro _
        simp [main, load_config, load_query, load_private_key_base64_run,
          snowflakeInit, fetch_data, closeConn, logReraise, requiredGet,
          hc, hq, hrsa, hk, h1, h2, h3, h4, h5, hcon, hwh, hf, hmt]

theorem overwrite_reports_status_main_exits_normally_witness :
    (({ envWithCfg fullCfg with updateOk := false } : Env).configFile = some fullCfg) ∧
    ((∀ df, (overwrite_with_dataframe { envWithCfg fullCfg with updateOk := false } df).2.1 = true ↔
        ∃ ws, (overwriteBody { envWithCfg fullCfg with updateOk := false } df).2 =
          Except.ok ws) ∧
    (main { envWithCfg fullCfg with updateOk := false }).2 = Except.ok () ∧
    ((overwrite_with_dataframe { envWithCfg fullCfg with updateOk := false }
        (stamp ⟨["id"], [[Cell.int 1]]⟩
          ({ envWithCfg fullCfg with updateOk := false } : Env).today)).2.1 = false →
      Event.log Level.warning "push_failed" ∈
        (main { envWithCfg fullCfg with updateOk := false }).1)) :=
  ⟨rfl, overwrite_reports_status_main_exits_normally
    { envWithCfg fullCfg with updateOk := false } fullCfg ⟨["id"], [[Cell.int 1]]⟩
    rfl ⟨"SELECT 1", rfl⟩ ⟨"rsa_key.p8", rfl⟩ ⟨⟨[48, 1, 2]⟩, rfl⟩
    ⟨"u", rfl⟩ ⟨"a", rfl⟩ ⟨"w", rfl⟩ ⟨"d", rfl⟩ ⟨"s", rfl⟩
    ⟨"google.json", rfl⟩ ⟨"url", rfl⟩ ⟨"Report", rfl⟩ rfl rfl rfl rfl rfl⟩

/-- C7 (counterexample): a query-file read failure terminates the run with
an error, but the trace carries no error-level log line at all — the
`load_query` stage re-raises without logging, refuting "both logged and
re-raised" for every pre-fetch stage. -/
theorem query_error_not_logged_counterexample :
    (main { envWithCfg fullCfg with queryFile := none }).2 =
      Except.error Err.ioError ∧
    (main { envWithCfg fullCfg with queryFile := none }).1 =
      [Event.log Level.info "load_config"] ∧
    hasErrorLog (main { envWithCfg fullCfg with queryFile := none }).1 = false := by
  decide

/-- C7 (amended): every error in config load, key load, warehouse connect
(including the `USE WAREHOUSE` statement) and fetch is both logged and
re-raised, terminating the run; a query-file load error is re-raised and
terminates the run, but without any log line. -/
theorem fatal_stages_logged_and_reraised (env : Env) (cfg : Config) :
    (env.configFile = none →
      (main env).2 = Except.error Err.configError ∧
      Event.log Level.error "load_config" ∈ (main env).1) ∧
    (env.configFile = some cfg → env.queryFile = none →
      (main env).2 = Except.error Err.ioError ∧
      hasErrorLog (main env).1 = false) ∧
    (env.configFile = some cfg → (∃ q, env.queryFile = some q) →
      (∃ v, List.lookup "RSA_KEY_PATH" cfg = some v) → env.pemKey = none →
      (main env).2 = Except.error Err.keyLoadError ∧
      Event.log Level.error "load_key" ∈ (main env).1) ∧
    (env.configFile = some cfg → (∃ q, env.queryFile = some q) →
      (∃ v, List.lookup "RSA_KEY_PATH" cfg = some v) →
      (∃ k0, env.pemKey = some k0) →
      (∃ v, List.lookup "SNOWFLAKE_USER" cfg = some v) →
      (∃ v, List.lookup "SNOWFLAKE_ACCOUNT" cfg = some v) →
      (∃ v, List.lookup "SNOWFLAKE_WAREHOUSE" cfg = some v) →
      (∃ v, List.lookup "SNOWFLAKE_DATABASE" cfg = some v) →
      (∃ v, List.lookup "SNOWFLAKE_SCHEMA" cfg = some v) →
      (env.connectOk = false ∨
        (env.connectOk = true ∧ env.useWarehouseOk = false)) →
      (main env).2 = Except.error Err.connectionError ∧
      Event.log Level.error "snowflake_init" ∈ (main env).1) ∧
    (env.configFile = some cfg → (∃ q, env.queryFile = some q) →
      (∃ v, List.lookup "RSA_KEY_PATH" cfg = some v) →
      (∃ k0, env.pemKey = some k0) →
      (∃ v, List.lookup "SNOWFLAKE_USER" cfg = some v) →
      (∃ v, List.lookup "SNOWFLAKE_ACCOUNT" cfg = some v) →
      (∃ v, List.lookup "SNOWFLAKE_WAREHOUSE" cfg = some v) →
      (∃ v, List.lookup "SNOWFLAKE_DATABASE" cfg = some v) →
      (∃ v, List.lookup "SNOWFLAKE_SCHEMA" cfg = some v) →
      env.connectOk = true → env.useWarehouseOk = true →
      env.fetchResult = none →
      (main env).2 = Except.error Err.queryError ∧
      Event.log Level.error "fetch_data" ∈ (main env).1) := by
  refine ⟨?_, ?_, ?_, ?_, ?_⟩
  · intro hc
    simp [main, load_config, logReraise, hc]
  · intro hc hq
    simp [main, load_config, load_query, logReraise, hasErrorLog, hc, hq]
  · intro hc hq hrsa hk
    obtain ⟨q, hq⟩ := hq
    obtain ⟨vr, hrsa⟩ := hrsa
    simp [main, load_config, load_query, load_private_key_base64_run,
      logReraise, requiredGet, hc, hq, hrsa, hk]
  · intro hc hq hrsa hk h1 h2 h3 h4 h5 hbad
    obtain ⟨q, hq⟩ := hq
    obtain ⟨vr, hrsa⟩ := hrsa
    obtain ⟨k0, hk⟩ := hk
    obtain ⟨v1, h1⟩ := h1
    obtain ⟨v2, h2⟩ := h2
    obtain ⟨v3, h3⟩ := h3
    obtain ⟨v4, h4⟩ := h4
    obtain ⟨v5, h5⟩ := h5
    rcases hbad with hcon | ⟨hcon, hwh⟩
    · simp [main, load_config, load_query, load_private_key_base64_run,
        snowflakeInit, logReraise, requiredGet,
        hc, hq, hrsa, hk, h1, h2, h3, h4, h5, hcon]
    · simp [main, load_config, load_query, load_private_key_base64_run,
        snowflakeInit, logReraise, requiredGet,
        hc, hq, hrsa, hk, h1, h2, h3, h4, h5, hcon, hwh]
  · intro hc hq hrsa hk h1 h2 h3 h4 h5 hcon hwh hf
    obtain ⟨q, hq⟩ := hq
    obtain ⟨vr, hrsa⟩ := hrsa
    obtain ⟨k0, hk⟩ := hk
    obtain ⟨v1, h1⟩ := h1
    obtain ⟨v2, h2⟩ := h2
    obtain ⟨v3, h3⟩ := h3
    obtain ⟨v4, h4⟩ := h4
    obtain ⟨v5, h5⟩ := h5
    simp [main, load_config, load_query, load_private_key_base64_run,
      snowflakeInit, fetch_data, closeConn, logReraise, requiredGet,
      hc, hq, hrsa, hk, h1, h2, h3, h4, h5, hcon, hwh, hf]

theorem fatal_stages_logged_and_reraised_witness :
    (({ envWithCfg fullCfg with connectOk := false } : Env).configFile = some fullCfg) ∧
    ((main { envWithCfg fullCfg with connectOk := false }).2 =
        Except.error Err.connectionError ∧
      Event.log Level.error "snowflake_init" ∈
        (main { envWithCfg fullCfg with connectOk := false }).1) :=
  ⟨rfl, (fatal_stages_logged_and_reraised
      { envWithCfg fullCfg with connectOk := false } fullCfg).2.2.2.1
    rfl ⟨"SELECT 1", rfl⟩ ⟨"rsa_key.p8", rfl⟩ ⟨⟨[48, 1, 2]⟩, rfl⟩
    ⟨"u", rfl⟩ ⟨"a", rfl⟩ ⟨"w", rfl⟩ ⟨"d", rfl⟩ ⟨"s", rfl⟩ (Or.inl rfl)⟩

/-- C6 (counterexample): with every key present except `SHEET_NAME`, the
run does fail — but only after the warehouse network calls have been
made, refuting "before attempting any network call" for that key. -/
theorem missing_sheet_name_after_network_counterexample :
    (main (envWithCfg (removeKey fullCfg "SHEET_NAME"))).2 =
      Except.error (Err.keyMissing "SHEET_NAME") ∧
    Event.net NetOp.connect ∈
      (main (envWithCfg (removeKey fullCfg "SHEET_NAME"))).1 ∧
    Event.net NetOp.fetch ∈
      (main (envWithCfg (removeKey fullCfg "SHEET_NAME"))).1 := by
  decide

/-- C6 (amended): a configuration missing one warehouse credential key or
the RSA key path makes the run fail before any network call; a
configuration missing the Google keyfile path, spreadsheet URL or sheet
name still makes the run fail with a `KeyError`, but only after the
warehouse phase, before any worksheet operation. -/
theorem missing_required_key_fails (k : String) :
    (k ∈ earlyKeys →
      (main (envWithCfg (removeKey fullCfg k))).2 =
        Except.error (Err.keyMissing k) ∧
      (main (envWithCfg (removeKey fullCfg k))).1.any isNetEvent = false) ∧
    (k ∈ lateKeys →
      (main (envWithCfg (removeKey fullCfg k))).2 =
        Except.error (Err.keyMissing k) ∧
      (main (envWithCfg (removeKey fullCfg k))).1.any
          (fun e => isSheetOpEvent e &&
            !(e == Event.net NetOp.authorize) &&
            !(e == Event.net NetOp.openByUrl)) = false ∧
      (main (envWithCfg (removeKey fullCfg k))).1.any
          (fun e => e == Event.net NetOp.wsUpdate) = false) := by
  constructor
  · intro hk
    fin_cases hk <;> exact ⟨by decide, by decide⟩
  · intro hk
    fin_cases hk <;> exact ⟨by decide, by decide, by decide⟩

theorem missing_required_key_fails_witness :
    ("SNOWFLAKE_USER" ∈ earlyKeys ∧
      ((main (envWithCfg (removeKey fullCfg "SNOWFLAKE_USER"))).2 =
          Except.error (Err.keyMissing "SNOWFLAKE_USER") ∧
        (main (envWithCfg (removeKey fullCfg "SNOWFLAKE_USER"))).1.any
          isNetEvent = false)) ∧
    ("SHEET_NAME" ∈ lateKeys ∧
      ((main (envWithCfg (removeKey fullCfg "SHEET_NAME"))).2 =
          Except.error (Err.keyMissing "SHEET_NAME") ∧
        (main (envWithCfg (removeKey fullCfg "SHEET_NAME"))).1.any
            (fun e => isSheetOpEvent e &&
              !(e == Event.net NetOp.authorize) &&
              !(e == Event.net NetOp.openByUrl)) = false ∧
        (main (envWithCfg (removeKey fullCfg "SHEET_NAME"))).1.any
            (fun e => e == Event.net NetOp.wsUpdate) = false)) :=
  ⟨⟨by decide, (missing_required_key_fails "SNOWFLAKE_USER").1 (by decide)⟩,
   ⟨by decide, (missing_required_key_fails "SHEET_NAME").2 (by decide)⟩⟩

end S2G
